import Mathlib

/-!
# Verification of the PubMed fetcher (`pubmed_fetcher.py`)

A shallow embedding of the fetcher's data model and operations, and proofs of
the specified properties.

Modelling conventions:
* An XML response body is modelled as `Option Doc`: `none` stands for a body
  that `etree.fromstring` fails to parse (every extractor catches the parse
  exception and degrades), `some d` for a parsed document `d` holding the
  fields the extractors read.
* Network attempts are modelled as lists of outcomes supplied by the
  environment; the retry loops consume at most 3 of them.
* Python's `str.strip()` and `str.lower()` are modelled on the character
  list (`strip`, `lower`), and the substring test `kw in s` by infix
  containment on the character lists.
-/

namespace PubMed

/-- Python's `str.strip()`: drop whitespace from both ends. -/
def strip (s : String) : String :=
  ⟨((s.data.dropWhile Char.isWhitespace).reverse.dropWhile Char.isWhitespace).reverse⟩

/-- Python's `str.lower()`: lowercase every character. -/
def lower (s : String) : String := ⟨s.data.map Char.toLower⟩

/-- Python's `kw in s` substring test. -/
def strContains (s pat : String) : Bool := decide (pat.data <:+: s.data)

/-- An author record as produced by `_extract_authors`:
`{"name": ..., "affiliation": ...}`. -/
structure Author where
  name : String
  affiliation : String
deriving DecidableEq, Repr

/-- The keyword list of `_filter_authors` (line 157). -/
def keywords : List String := ["pharma", "biotech", "pharmaceutical", "biotechnology"]

/-- The per-author match test of `_filter_authors` (lines 160-161):
`any(keyword in affiliation for keyword in keywords)` on the lowercased
affiliation. -/
def author_matches (kws : List String) (author : Author) : Bool :=
  kws.any fun keyword => strContains (lower author.affiliation) keyword

/-- `_filter_authors` (lines 153-174), parameterised by the keyword list.
The loop appends the name and affiliation of each matching author, in order;
if no author matched, all names and affiliations are returned instead. -/
def filter_authors_with (kws : List String) (authors : List Author) :
    List String × List String :=
  let company_authors := (authors.filter (author_matches kws)).map Author.name
  let company_affiliations :=
    (authors.filter (author_matches kws)).map Author.affiliation
  if company_authors.isEmpty then
    (authors.map Author.name, authors.map Author.affiliation)
  else
    (company_authors, company_affiliations)

/-- `_filter_authors` with the hard-coded keyword list of the source. -/
def filter_authors (authors : List Author) : List String × List String :=
  filter_authors_with keywords authors

/-- The `<PubDate>` substructure as read by `_extract_pub_date`:
`findtext` on `Year`/`Month`/`Day` gives the element text when the element is
present (possibly empty text), otherwise the default `""`. -/
structure PubDateXml where
  year : Option String
  month : Option String
  day : Option String
deriving DecidableEq, Repr

/-- One `<Author>` element as read by `_extract_authors`. -/
structure AuthorXml where
  lastName : Option String
  foreName : Option String
  affiliation : Option String
deriving DecidableEq, Repr

/-- A parsed detail-fetch response document, holding the fields the four
extractors read: first `<ArticleTitle>` text, first `<Email>` text, the
`<PubDate>` substructure, and the `<Author>` elements. -/
structure Doc where
  articleTitle : Option String
  email : Option String
  pubDate : Option PubDateXml
  authors : List AuthorXml
deriving DecidableEq, Repr

/-- `_extract_from_xml` (lines 107-117): parse the body, look up the first
element with the given tag (here: a field selector), return its stripped text;
a parse failure, a missing element or missing text all degrade to `""`. -/
def extract_from_xml (body : Option Doc) (tag : Doc → Option String) : String :=
  match body with
  | none => ""
  | some root =>
    match tag root with
    | none => ""
    | some text => strip text

/-- `_extract_pub_date` (lines 119-132): read `Year`/`Month`/`Day` under
`<PubDate>` (default `""`), strip them, and compose `"Y-M-D"` only when all
three are non-empty; otherwise (or on parse failure / missing `<PubDate>`)
return `""`. -/
def extract_pub_date (body : Option Doc) : String :=
  match body with
  | none => ""
  | some root =>
    match root.pubDate with
    | none => ""
    | some pd =>
      let year := strip (pd.year.getD "")
      let month := strip (pd.month.getD "")
      let day := strip (pd.day.getD "")
      if year ≠ "" ∧ month ≠ "" ∧ day ≠ "" then
        year ++ "-" ++ month ++ "-" ++ day
      else ""

/-- The author loop of `_extract_authors` (lines 139-147): for each `<Author>`
element, strip `LastName`/`ForeName`/`Affiliation` (default `""`) and keep
`{"name": f"{fore_name} {last_name}", "affiliation": affiliation}` only when
the stripped last name is non-empty. -/
def extract_authors_list : List AuthorXml → List Author
  | [] => []
  | au :: rest =>
    let last_name := strip (au.lastName.getD "")
    let fore_name := strip (au.foreName.getD "")
    let affiliation := strip (au.affiliation.getD "")
    if last_name ≠ "" then
      { name := fore_name ++ " " ++ last_name, affiliation := affiliation } ::
        extract_authors_list rest
    else
      extract_authors_list rest

/-- `_extract_authors` (lines 134-151): on a parse failure the partially built
(empty) list is returned. -/
def extract_authors (body : Option Doc) : List Author :=
  match body with
  | none => []
  | some root => extract_authors_list root.authors

/-- A `ReportRow`: the dict built by `_fetch_paper_details` (lines 97-104),
with keys PubmedID, Title, Publication Date, Non-academic Author(s),
Company Affiliation(s), Corresponding Author Email. -/
structure Row where
  pubmedId : String
  title : String
  pubDate : String
  nonAcademicAuthors : String
  companyAffiliations : String
  email : String
deriving DecidableEq, Repr

/-- The extraction half of `_fetch_paper_details` (lines 86-105): extract the
fields from the (possibly unparseable) response body, filter the authors, and
build the row only when the filtered author list is non-empty. -/
def paper_details_from_body (paper_id : String) (body : Option Doc) : Option Row :=
  let title := extract_from_xml body Doc.articleTitle
  let pub_date := extract_pub_date body
  let authors := extract_authors body
  let email := extract_from_xml body Doc.email
  let company := filter_authors authors
  if company.1.isEmpty then none
  else
    some { pubmedId := paper_id
           title := title
           pubDate := pub_date
           nonAcademicAuthors := String.intercalate ", " company.1
           companyAffiliations := String.intercalate ", " company.2
           email := email }

/-- One attempt outcome of the detail-fetch retry loop. Only
`requests.exceptions.RequestException` (timeout, connection error, non-2xx via
`raise_for_status`) is caught by the loop; a 2xx response exits the loop with
its body, parseable (`some doc`) or not (`none`). -/
inductive FetchAttempt where
  | fail : FetchAttempt
  | ok (body : Option Doc) : FetchAttempt
deriving DecidableEq, Repr

/-- The retry loop of `_fetch_paper_details` (lines 70-84): up to 3 attempts,
exiting with the first successful response's body; `none` when all 3 attempts
raise (the function then returns `None`). -/
def retry_fetch (attempts : List FetchAttempt) : Option (Option Doc) :=
  (attempts.take 3).findSome? fun a =>
    match a with
    | .fail => none
    | .ok body => some body

/-- `_fetch_paper_details` (lines 62-105). -/
def fetch_paper_details (paper_id : String) (attempts : List FetchAttempt) :
    Option Row :=
  match retry_fetch attempts with
  | none => none
  | some body => paper_details_from_body paper_id body

/-- One attempt outcome of the search retry loop in `fetch_papers`. Both
`requests.exceptions.RequestException` and `ValueError` (malformed JSON from
`response.json()`) are caught and retried; on success `idlist` is
`data.get("esearchresult", \x7b\x7d).get("idlist", ...)` — `none` models a
response in which the list is absent. -/
inductive SearchAttempt where
  | fail : SearchAttempt
  | ok (idlist : Option (List String)) : SearchAttempt
deriving DecidableEq, Repr

/-- The search stage of `fetch_papers` (lines 29-46): up to 3 attempts; the
first successful attempt's `idlist` (defaulting to `[]` when absent) is the
result; `[]` is returned when all 3 attempts fail. -/
def search_ids (attempts : List SearchAttempt) : List String :=
  match (attempts.take 3).findSome? (fun a =>
      match a with
      | .fail => none
      | .ok idlist => some idlist) with
  | none => []
  | some idlist => idlist.getD []

/-- `fetch_papers` (lines 17-60): search, then detail-fetch the first 10
identifiers in order, collecting the non-`None` details. `details` supplies
the environment's attempt outcomes for each identifier. -/
def fetch_papers (searchAttempts : List SearchAttempt)
    (details : String → List FetchAttempt) : List Row :=
  let paper_ids := search_ids searchAttempts
  (paper_ids.take 10).filterMap fun paper_id =>
    fetch_paper_details paper_id (details paper_id)

/-- A console rendering of one row, standing for Python's `print(paper)` in
the no-filename branch of `save_to_csv`. -/
def Row.consoleLine (r : Row) : String :=
  String.intercalate ", "
    [r.pubmedId, r.title, r.pubDate, r.nonAcademicAuthors,
     r.companyAffiliations, r.email]

/-- `save_to_csv` (lines 176-197), returning the list of printed console
messages. The file write is modelled by `writeResult`: `.error e` stands for
the exception raised by `open`/`csv` writing, caught at lines 193-194. -/
def save_to_csv (papers : List Row) (filename : Option String)
    (writeResult : Except String Unit) (debug : Bool) : List String :=
  if papers.isEmpty then
    ["No papers found."]
  else
    match filename with
    | some fname =>
      match writeResult with
      | .ok _ => if debug then ["Results saved to " ++ fname ++ "."] else []
      | .error e => ["Error saving to CSV: " ++ e]
    | none => papers.map Row.consoleLine

/-! ## Helper lemmas -/

theorem strContains_mono {p q : String} (s : String) (h : p.data <:+: q.data)
    (hq : strContains s q = true) : strContains s p = true := by
  simp only [strContains, decide_eq_true_eq] at hq ⊢
  exact h.trans hq

theorem author_matches_keywords_eq (a : Author) :
    author_matches keywords a = author_matches ["pharma", "biotech"] a := by
  simp only [author_matches, keywords, List.any_cons, List.any_nil, Bool.or_false]
  cases h1 : strContains (lower a.affiliation) "pharma" <;>
    cases h2 : strContains (lower a.affiliation) "biotech" <;>
      simp only [Bool.false_or, Bool.true_or, Bool.or_false, Bool.or_true]
  cases h3 : strContains (lower a.affiliation) "pharmaceutical"
  · cases h4 : strContains (lower a.affiliation) "biotechnology"
    · rfl
    · have : strContains (lower a.affiliation) "biotech" = true :=
        strContains_mono _ (by decide) h4
      rw [this] at h2
      exact absurd h2 (by simp)
  · have : strContains (lower a.affiliation) "pharma" = true :=
      strContains_mono _ (by decide) h3
    rw [this] at h1
    exact absurd h1 (by simp)

/-! ## Claims about `_filter_authors` -/

/-- C10: classification with the full keyword list
`["pharma", "biotech", "pharmaceutical", "biotechnology"]` is extensionally
equal to classification with the reduced list `["pharma", "biotech"]`, because
`"pharma"` is a substring of `"pharmaceutical"` and `"biotech"` of
`"biotechnology"`. -/
theorem filter_authors_reduced_keywords_equiv (authors : List Author) :
    filter_authors authors = filter_authors_with ["pharma", "biotech"] authors := by
  have hfil : authors.filter (author_matches keywords) =
      authors.filter (author_matches ["pharma", "biotech"]) :=
    List.filter_congr fun a _ => author_matches_keywords_eq a
  simp only [filter_authors, filter_authors_with, hfil]

/-- C1: for a non-empty author list in which no author matches any keyword,
`_filter_authors` returns all names and affiliations in original order (never
an empty result); and an author whose lowercased affiliation contains some
keyword is included in the returned matching set. -/
theorem filter_authors_fallback_and_match :
    (∀ (authors : List Author), authors ≠ [] →
        (∀ a ∈ authors, author_matches keywords a = false) →
        filter_authors authors =
            (authors.map Author.name, authors.map Author.affiliation) ∧
          (filter_authors authors).1 ≠ []) ∧
    (∀ (authors : List Author) (a : Author), a ∈ authors →
        author_matches keywords a = true →
        a.name ∈ (filter_authors authors).1) := by
  constructor
  · intro authors hne hnone
    have hfil : authors.filter (author_matches keywords) = [] :=
      List.filter_eq_nil_iff.mpr fun a ha => by simp [hnone a ha]
    have heq : filter_authors authors =
        (authors.map Author.name, authors.map Author.affiliation) := by
      simp [filter_authors, filter_authors_with, hfil]
    refine ⟨heq, ?_⟩
    rw [heq]
    simpa using hne
  · intro authors a ha hm
    have hmem : a ∈ authors.filter (author_matches keywords) :=
      List.mem_filter.mpr ⟨ha, hm⟩
    simp only [filter_authors, filter_authors_with]
    split
    · exact List.mem_map.mpr ⟨a, ha, rfl⟩
    · exact List.mem_map.mpr ⟨a, hmem, rfl⟩

/-- C1 witness: a one-author list with a university affiliation falls back to
the full list; an author with a pharma affiliation lands in the matching
set. -/
theorem filter_authors_fallback_and_match_witness :
    (filter_authors [⟨"Alice A", "State University"⟩] =
        (["Alice A"], ["State University"]) ∧
      (filter_authors [⟨"Alice A", "State University"⟩]).1 ≠ []) ∧
    ("Bob B" ∈ (filter_authors
        [⟨"Alice A", "State University"⟩, ⟨"Bob B", "Acme Pharma Inc"⟩]).1) :=
  ⟨filter_authors_fallback_and_match.1 _ (by decide) (by decide),
   filter_authors_fallback_and_match.2 _ ⟨"Bob B", "Acme Pharma Inc"⟩
     (by decide) (by decide)⟩

/-- C2: the two sequences returned by `_filter_authors` are index-aligned:
they are the name- and affiliation-projections of one sublist of the input
(hence same length, same underlying authors at each index, original order). -/
theorem filter_authors_parallel (authors : List Author) :
    ∃ sub : List Author, List.Sublist sub authors ∧
      (filter_authors authors).1 = sub.map Author.name ∧
      (filter_authors authors).2 = sub.map Author.affiliation ∧
      (filter_authors authors).1.length = (filter_authors authors).2.length := by
  by_cases hemp :
      ((authors.filter (author_matches keywords)).map Author.name).isEmpty = true
  · refine ⟨authors, List.Sublist.refl authors, ?_, ?_, ?_⟩ <;>
      simp [filter_authors, filter_authors_with, hemp]
  · refine ⟨authors.filter (author_matches keywords), List.filter_sublist authors,
      ?_, ?_, ?_⟩ <;> simp [filter_authors, filter_authors_with, hemp]

/-! ## Claims about `_extract_pub_date` -/

theorem hyphen_append_ne_empty (y m d : String) :
    (y ++ "-" ++ m ++ "-" ++ d) ≠ "" := by
  intro h
  have hd := congrArg String.data h
  simp [String.data_append] at hd

/-- C5: the composed publication date is non-empty iff the `<PubDate>`
substructure is present and its `Year`, `Month` and `Day` subfields all have
non-empty stripped text; a single missing or empty component yields `""`. -/
theorem extract_pub_date_nonempty_iff (root : Doc) :
    extract_pub_date (some root) ≠ "" ↔
      ∃ pd, root.pubDate = some pd ∧
        strip (pd.year.getD "") ≠ "" ∧ strip (pd.month.getD "") ≠ "" ∧
          strip (pd.day.getD "") ≠ "" := by
  rcases hpd : root.pubDate with _ | pd
  · simp [extract_pub_date, hpd]
  · simp only [extract_pub_date, hpd]
    by_cases hcond : strip (pd.year.getD "") ≠ "" ∧ strip (pd.month.getD "") ≠ "" ∧
        strip (pd.day.getD "") ≠ ""
    · rw [if_pos hcond]
      constructor
      · intro _
        exact ⟨pd, rfl, hcond⟩
      · intro _
        exact hyphen_append_ne_empty _ _ _
    · rw [if_neg hcond]
      constructor
      · intro h
        exact absurd rfl h
      · rintro ⟨pd2, hpd2, h2⟩
        cases Option.some.inj hpd2
        exact absurd h2 hcond

/-- C5 witness: a document with year, month and day all present yields a
non-empty date. -/
theorem extract_pub_date_nonempty_iff_witness :
    extract_pub_date
        (some ⟨some "T", none, some ⟨some "2020", some "01", some "05"⟩, []⟩) ≠ "" :=
  (extract_pub_date_nonempty_iff _).mpr
    ⟨⟨some "2020", some "01", some "05"⟩, rfl, by decide, by decide, by decide⟩

/-- The "YYYY-MM-DD" shape demanded by the spec for `publicationDate`:
four digits, hyphen, two digits, hyphen, two digits. (Stated from the spec's
words, to compare with the code's output.) -/
def isYYYYMMDD (s : String) : Bool :=
  match s.data with
  | [y1, y2, y3, y4, h1, m1, m2, h2, d1, d2] =>
    y1.isDigit && y2.isDigit && y3.isDigit && y4.isDigit && h1 == '-' &&
      m1.isDigit && m2.isDigit && h2 == '-' && d1.isDigit && d2.isDigit
  | _ => false

/-- A detail document whose `<PubDate>` month text is the name `"Jan"` and
whose day is the single digit `"5"`, with one pharma-affiliated author. -/
def monthNameDoc : Doc :=
  { articleTitle := some "A Title"
    email := some "a@b.c"
    pubDate := some { year := some "2020", month := some "Jan", day := some "5" }
    authors := [{ lastName := some "Doe", foreName := some "Jane",
                  affiliation := some "Acme Pharma" }] }

/-- C6 counterexample: a produced row whose publication date is
`"2020-Jan-5"` — non-empty and not of "YYYY-MM-DD" numeric form, because the
code composes the raw subfield texts without any format validation. -/
theorem row_pub_date_not_yyyymmdd :
    (paper_details_from_body "123" (some monthNameDoc)).map Row.pubDate =
        some "2020-Jan-5" ∧
      isYYYYMMDD "2020-Jan-5" = false ∧ "2020-Jan-5" ≠ "" :=
  ⟨by decide, by decide, by decide⟩

/-- C6 (amended): every produced row's publication date is either empty or
of the shape `y ++ "-" ++ m ++ "-" ++ d` for non-empty stripped subfield
texts `y`, `m`, `d`; no digit-count or numeric format is enforced. -/
theorem row_pub_date_shape :
    ∀ (paper_id : String) (body : Option Doc) (row : Row),
      paper_details_from_body paper_id body = some row →
      row.pubDate = "" ∨
        ∃ y m d, y ≠ "" ∧ m ≠ "" ∧ d ≠ "" ∧
          row.pubDate = y ++ "-" ++ m ++ "-" ++ d := by
  intro paper_id body row hrow
  have hpd : row.pubDate = extract_pub_date body := by
    dsimp only [paper_details_from_body] at hrow
    split at hrow
    · cases hrow
    · cases hrow
      rfl
  rw [hpd]
  cases body with
  | none => exact Or.inl rfl
  | some root =>
    rcases hpd2 : root.pubDate with _ | pd
    · left
      simp [extract_pub_date, hpd2]
    · simp only [extract_pub_date, hpd2]
      split
      · next hcond =>
        exact Or.inr ⟨_, _, _, hcond.1, hcond.2.1, hcond.2.2, rfl⟩
      · exact Or.inl rfl

/-- C6 witness: the amended shape at the concrete document `monthNameDoc`. -/
theorem row_pub_date_shape_witness :
    (Row.pubDate ⟨"123", "A Title", "2020-Jan-5", "Jane Doe", "Acme Pharma",
        "a@b.c"⟩ = "" ∨
      ∃ y m d, y ≠ "" ∧ m ≠ "" ∧ d ≠ "" ∧
        Row.pubDate ⟨"123", "A Title", "2020-Jan-5", "Jane Doe", "Acme Pharma",
          "a@b.c"⟩ = y ++ "-" ++ m ++ "-" ++ d) :=
  row_pub_date_shape "123" (some monthNameDoc) _ (by decide)

/-! ## Claims about `_extract_authors` -/

/-- A detail document with one author lacking a `ForeName`. -/
def missingForeNameDoc : Doc :=
  { articleTitle := none
    email := none
    pubDate := none
    authors := [{ lastName := some "Smith", foreName := none,
                  affiliation := some "Acme Biotech" }] }

/-- C7 counterexample: with `ForeName` absent the assembled name is
`" Smith"`, keeping the stray leading space — it is not normalized to the
single-token `"Smith"`. -/
theorem extract_authors_leading_space :
    extract_authors (some missingForeNameDoc) =
        [{ name := " Smith", affiliation := "Acme Biotech" }] ∧
      extract_authors (some missingForeNameDoc) ≠
        [{ name := "Smith", affiliation := "Acme Biotech" }] :=
  ⟨by decide, by decide⟩

theorem extract_authors_list_filter_map (aus : List AuthorXml) :
    extract_authors_list aus =
      (aus.filter fun au => strip (au.lastName.getD "") != "").map fun au =>
        { name := strip (au.foreName.getD "") ++ " " ++ strip (au.lastName.getD "")
          affiliation := strip (au.affiliation.getD "") } := by
  induction aus with
  | nil => rfl
  | cons au rest ih =>
    by_cases h : strip (au.lastName.getD "") ≠ ""
    · have hb : (strip (au.lastName.getD "") != "") = true := by
        simpa using h
      simp only [extract_authors_list, List.filter_cons, hb, if_pos h, if_true,
        List.map_cons, ih]
    · have hb : (strip (au.lastName.getD "") != "") = false := by
        simpa using h
      simp only [extract_authors_list, List.filter_cons, hb, if_neg h, if_false,
        Bool.false_eq_true, ih]

/-- C7 (amended): author extraction keeps exactly the entries whose stripped
family name is non-empty, in order; each kept author's name is the stripped
given name, a space separator (kept even when the given name is absent, so
the name then has a stray leading space), then the stripped family name, and
the affiliation is the stripped affiliation text (or `""`). -/
theorem extract_authors_kept_shape (root : Doc) :
    extract_authors (some root) =
      (root.authors.filter fun au => strip (au.lastName.getD "") != "").map
        fun au =>
          { name := strip (au.foreName.getD "") ++ " " ++ strip (au.lastName.getD "")
            affiliation := strip (au.affiliation.getD "") } :=
  extract_authors_list_filter_map root.authors

/-! ## Claims about the detail-fetch retry contract -/

/-- Modelled from the spec: the detail-fetch retry loop as C3 describes it,
in which a response body that fails to parse (ParseFailure) is also treated
as a failed attempt and retried, like a network failure. For comparison with
`retry_fetch`, which the code implements. -/
def retry_fetch_specRetry (attempts : List FetchAttempt) : Option Doc :=
  (attempts.take 3).findSome? fun a =>
    match a with
    | .fail => none
    | .ok none => none
    | .ok (some root) => some root

/-- Modelled from the spec: `_fetch_paper_details` under the C3 retry
contract, retrying unparseable bodies. -/
def fetch_paper_details_specRetry (paper_id : String)
    (attempts : List FetchAttempt) : Option Row :=
  match retry_fetch_specRetry attempts with
  | none => none
  | some root => paper_details_from_body paper_id (some root)

/-- A well-formed detail document with one biotech-affiliated author. -/
def goodDoc : Doc :=
  { articleTitle := some "T"
    email := none
    pubDate := none
    authors := [{ lastName := some "Roe", foreName := some "Ann",
                  affiliation := some "Beta Biotech" }] }

/-- C3 counterexample: the first attempt returns an unparseable body and the
code degrades to no detail without retrying, although the remaining attempts
would have returned a parseable document with an author; the retry contract
C3 describes would have produced a row. -/
theorem detail_parse_failure_not_retried :
    fetch_paper_details "9"
        [.ok none, .ok (some goodDoc), .ok (some goodDoc)] = none ∧
      fetch_paper_details_specRetry "9"
        [.ok none, .ok (some goodDoc), .ok (some goodDoc)] ≠ none :=
  ⟨rfl, by decide⟩

/-- C3 (amended): the detail-fetch retry loop retries only network failures
(`requests.exceptions.RequestException`): after 3 such failed attempts it
signals no detail (`None`) rather than raising; a response body that fails to
parse is NOT retried — every field extraction degrades on it, so the record
immediately yields no detail; after a network failure the next attempt's
response is the one used. -/
theorem fetch_paper_details_retry_contract :
    (∀ (paper_id : String) (attempts : List FetchAttempt),
        (∀ a ∈ attempts.take 3, a = .fail) →
        fetch_paper_details paper_id attempts = none) ∧
    (∀ (paper_id : String) (rest : List FetchAttempt),
        fetch_paper_details paper_id (.ok none :: rest) = none) ∧
    (∀ (paper_id : String) (body : Option Doc) (rest : List FetchAttempt),
        fetch_paper_details paper_id (.fail :: .ok body :: rest) =
          paper_details_from_body paper_id body) := by
  refine ⟨?_, fun _ _ => rfl, fun _ _ _ => rfl⟩
  intro paper_id attempts hall
  have hretry : retry_fetch attempts = none := by
    unfold retry_fetch
    rw [List.findSome?_eq_none_iff]
    intro a ha
    rw [hall a ha]
  unfold fetch_paper_details
  rw [hretry]

/-- C3 witness: the amended contract at concrete attempt lists. -/
theorem fetch_paper_details_retry_contract_witness :
    fetch_paper_details "9" [.fail, .fail, .fail] = none ∧
      fetch_paper_details "9" [.ok none] = none ∧
      fetch_paper_details "9" [.fail, .ok (some goodDoc)] =
        paper_details_from_body "9" (some goodDoc) :=
  ⟨fetch_paper_details_retry_contract.1 "9" [.fail, .fail, .fail] (by decide),
   fetch_paper_details_retry_contract.2.1 "9" [],
   fetch_paper_details_retry_contract.2.2 "9" (some goodDoc) []⟩

/-! ## Claims about row production and fail-soft behaviour -/

theorem filter_authors_fst_ne_nil (authors : List Author) (h : authors ≠ []) :
    (filter_authors authors).1 ≠ [] := by
  simp only [filter_authors, filter_authors_with]
  split
  · simpa using h
  · next hemp =>
    simpa [List.isEmpty_iff] using hemp

/-- A detail document with a title but no author entries. -/
def noAuthorsDoc : Doc :=
  { articleTitle := some "T", email := none, pubDate := none, authors := [] }

/-- C8: an empty author list is classified to two empty sequences and yields
no row; a parsed record with at least one extracted author always yields a
row (by the fallback rule). -/
theorem row_produced_iff_some_author :
    filter_authors [] = ([], []) ∧
    (∀ (paper_id : String) (body : Option Doc),
        extract_authors body = [] →
        paper_details_from_body paper_id body = none) ∧
    (∀ (paper_id : String) (body : Option Doc),
        extract_authors body ≠ [] →
        (paper_details_from_body paper_id body).isSome = true) := by
  refine ⟨rfl, ?_, ?_⟩
  · intro paper_id body hnone
    dsimp only [paper_details_from_body]
    rw [hnone]
    rfl
  · intro paper_id body hsome
    have hne : (filter_authors (extract_authors body)).1 ≠ [] :=
      filter_authors_fst_ne_nil _ hsome
    dsimp only [paper_details_from_body]
    split
    · next hemp =>
      rw [List.isEmpty_iff] at hemp
      exact absurd hemp hne
    · rfl

/-- C8 witness: a record with no author entries yields no row; `goodDoc` with
its one author yields a row. -/
theorem row_produced_iff_some_author_witness :
    paper_details_from_body "1" (some noAuthorsDoc) = none ∧
      (paper_details_from_body "2" (some goodDoc)).isSome = true :=
  ⟨row_produced_iff_some_author.2.1 "1" (some noAuthorsDoc) (by decide),
   row_produced_iff_some_author.2.2 "2" (some goodDoc) (by decide)⟩

/-- C9: when all 3 search attempts fail, the search stage returns an empty
identifier list (it does not raise), the run produces no papers, and
`save_to_csv` then emits the "No papers found." signal; a successful search
response with the identifier list absent is likewise treated as empty. -/
theorem search_fail_soft :
    (∀ (searchAttempts : List SearchAttempt)
        (details : String → List FetchAttempt) (filename : Option String)
        (writeResult : Except String Unit) (debug : Bool),
        (∀ a ∈ searchAttempts.take 3, a = .fail) →
        search_ids searchAttempts = [] ∧
          fetch_papers searchAttempts details = [] ∧
          save_to_csv (fetch_papers searchAttempts details) filename writeResult
              debug = ["No papers found."]) ∧
    (∀ rest : List SearchAttempt, search_ids (.ok none :: rest) = []) := by
  refine ⟨?_, fun _ => rfl⟩
  intro searchAttempts details filename writeResult debug hall
  have hids : search_ids searchAttempts = [] := by
    unfold search_ids
    rw [List.findSome?_eq_none_iff.mpr fun a ha => by rw [hall a ha]]
  have hpapers : fetch_papers searchAttempts details = [] := by
    unfold fetch_papers
    rw [hids]
    rfl
  refine ⟨hids, hpapers, ?_⟩
  rw [hpapers]
  rfl

/-- C9 witness: three failed attempts at concrete inputs. -/
theorem search_fail_soft_witness :
    (search_ids [.fail, .fail, .fail] = [] ∧
      fetch_papers [.fail, .fail, .fail] (fun _ => []) = [] ∧
      save_to_csv (fetch_papers [.fail, .fail, .fail] (fun _ => [])) none
          (.ok ()) false = ["No papers found."]) ∧
    search_ids [SearchAttempt.ok none] = [] :=
  ⟨search_fail_soft.1 [.fail, .fail, .fail] (fun _ => []) none (.ok ()) false
      (by decide),
   search_fail_soft.2 []⟩

/-- C4: when writing the report to a named destination fails, `save_to_csv`
prints the error message (reports it rather than silently swallowing it) and
returns normally, so the failure is fatal only to the output step and the
caller still holds the fetched rows. -/
theorem save_to_csv_write_failure_reported :
    ∀ (papers : List Row) (fname e : String) (debug : Bool),
      papers ≠ [] →
      save_to_csv papers (some fname) (.error e) debug =
        ["Error saving to CSV: " ++ e] := by
  intro papers fname e debug hne
  unfold save_to_csv
  rw [if_neg (by simpa [List.isEmpty_iff] using hne)]

/-- C4 witness: a write failure on a one-row report is reported verbatim. -/
theorem save_to_csv_write_failure_reported_witness :
    save_to_csv [⟨"1", "T", "", "A", "B", ""⟩] (some "out.csv")
        (.error "disk full") false = ["Error saving to CSV: disk full"] :=
  save_to_csv_write_failure_reported [⟨"1", "T", "", "A", "B", ""⟩] "out.csv"
    "disk full" false (by decide)

end PubMed
